import Mathlib

/-!
Shallow embedding of the booking lifecycle and conflict-detection core of the
kitchen-equipment rental backend (BookingService, PaymentService,
BookingRepository, PaymentRepository), together with theorems settling the
frozen claims about it.

Conventions of the embedding:
* Timestamps are integers counting milliseconds since the Unix epoch
  (JavaScript `Date.getTime()`), with the local timezone modelled as UTC.
* `Date.setHours(0,0,0,0)` becomes `dayTrunc`; `Date.setFullYear(y+1)` becomes
  `setFullYearPlusOne`, using the standard civil-calendar conversion (the
  Gregorian normalisation of Feb 29 to Mar 1 matches JavaScript's behaviour).
* Mongo object ids are `Nat`; money amounts and daily rates are `Int`
  (every quantity the claims touch is integral, and the float divisions in the
  source are exact at these magnitudes).
* Each `throw new XError(...)` site becomes a distinct constructor of `BErr`
  (with a `VReason` distinguishing the individual `ValidationError` messages).
* The document store is a `List Booking` (resp. `List Payment`) passed and
  returned explicitly; a repository write returns the new store.
-/

namespace KowKartel

/-- Milliseconds per day: 1000 * 60 * 60 * 24. -/
def msPerDay : Int := 86400000

/-- Milliseconds per hour: 1000 * 60 * 60. -/
def msPerHour : Int := 3600000

/-- `setHours(0,0,0,0)`: truncate a timestamp to midnight of its civil day. -/
def dayTrunc (t : Int) : Int := msPerDay * (t.fdiv msPerDay)

/-- Ceiling division of integers (for positive divisor), modelling
`Math.ceil(a / b)` on exactly-represented inputs. -/
def cdiv (a b : Int) : Int := -((-a).fdiv b)

/-- Day number since 1970-01-01 of the civil date `(y, m, d)`
(Gregorian, proleptic).  The formula is linear in `d`, so an out-of-range
day-of-month such as Feb 29 of a non-leap year normalises forward exactly as
JavaScript `Date` field setters do. -/
def daysFromCivil (y m d : Int) : Int :=
  let yAdj := if m ≤ 2 then y - 1 else y
  let cycle := yAdj.fdiv 400
  let yearInCycle := yAdj - cycle * 400
  let monthIdx := if m > 2 then m - 3 else m + 9
  let dayInYear := (153 * monthIdx + 2).fdiv 5 + d - 1
  let dayInCycle :=
    yearInCycle * 365 + yearInCycle.fdiv 4 - yearInCycle.fdiv 100 + dayInYear
  cycle * 146097 + dayInCycle - 719468

/-- Civil date `(y, m, d)` of a day number since 1970-01-01. -/
def civilFromDays (z0 : Int) : Int × Int × Int :=
  let shifted := z0 + 719468
  let cycle := shifted.fdiv 146097
  let dayInCycle := shifted - cycle * 146097
  let yearInCycle :=
    (dayInCycle - dayInCycle.fdiv 1460 + dayInCycle.fdiv 36524 -
      dayInCycle.fdiv 146096).fdiv 365
  let y := yearInCycle + cycle * 400
  let dayInYear :=
    dayInCycle - (365 * yearInCycle + yearInCycle.fdiv 4 - yearInCycle.fdiv 100)
  let monthIdx := (5 * dayInYear + 2).fdiv 153
  let d := dayInYear - (153 * monthIdx + 2).fdiv 5 + 1
  let m := if monthIdx < 10 then monthIdx + 3 else monthIdx - 9
  (if m ≤ 2 then y + 1 else y, m, d)

/-- Midnight timestamp of a civil date. -/
def msOfCivil (y m d : Int) : Int := daysFromCivil y m d * msPerDay

/-- `const maxDate = new Date(); maxDate.setFullYear(maxDate.getFullYear() + 1)`:
same clock time, same month and day-of-month, one calendar year later
(Feb 29 normalising to Mar 1). -/
def setFullYearPlusOne (t : Int) : Int :=
  let day := t.fdiv msPerDay
  let tod := t - day * msPerDay
  match civilFromDays day with
  | (y, m, d) => daysFromCivil (y + 1) m d * msPerDay + tod

/-- `BookingStatus` enum of `booking.model.ts`. -/
inductive BookingStatus
  | pending
  | confirmed
  | active
  | completed
  | cancelled
deriving DecidableEq, Repr

/-- `EquipmentStatus` enum of `equipment.model.ts`. -/
inductive EquipmentStatus
  | available
  | maintenance
  | retired
deriving DecidableEq, Repr

/-- `PaymentStatus` enum of `payment.model.ts`. -/
inductive PaymentStatus
  | pending
  | succeeded
  | failed
  | refunded
deriving DecidableEq, Repr

/-- `UserRole` enum of `user.model.ts`. -/
inductive Role
  | customer
  | admin
  | logistics
deriving DecidableEq, Repr

/-- One constructor per distinct `ValidationError` message thrown by the
booking/payment services. -/
inductive VReason
  | pastStartDate
  | endBeforeOrEqualStart
  | tooFarInFuture
  | equipmentUnavailable
  | subMinimumDuration
  | cannotCancelCompleted
  | alreadyCancelled
  | cancellationWindow
  | terminalUpdate
  | wrongStatusConfirm
  | wrongStatusStart
  | beforeStartDate
  | wrongStatusComplete
  | notRefundable
  | alreadyRefunded
deriving DecidableEq, Repr

/-- The error taxonomy of `utils/errorHandler.ts` as thrown by the modelled
services: `NotFoundError`, `ValidationError`, `ConflictError`,
`AuthorizationError`. -/
inductive BErr
  | notFound
  | validation (r : VReason)
  | conflict
  | authorization
deriving DecidableEq, Repr

/-- The fields of `IEquipment` the booking core reads. -/
structure Equipment where
  id : Nat
  status : EquipmentStatus
  dailyRate : Int
deriving DecidableEq, Repr

/-- The fields of `IBooking` the booking core reads and writes. -/
structure Booking where
  id : Nat
  customerId : Nat
  equipmentId : Nat
  startDate : Int
  endDate : Int
  deliveryAddress : String
  notes : Option String := none
  totalAmount : Int
  status : BookingStatus
deriving DecidableEq, Repr

/-- The fields of `IPayment` the payment service reads and writes. -/
structure Payment where
  id : Nat
  bookingId : Nat
  stripePaymentIntentId : Nat
  amount : Int
  status : PaymentStatus
  refundAmount : Option Int := none
deriving DecidableEq, Repr

/-- The two document collections the modelled services touch. -/
structure SysState where
  bookings : List Booking
  payments : List Payment
deriving DecidableEq, Repr

/-- `equipmentRepository.findById`. -/
def findEquipment (eqs : List Equipment) (id : Nat) : Option Equipment :=
  eqs.find? fun q => q.id = id

/-- `bookingRepository.findById`. -/
def findBooking (store : List Booking) (id : Nat) : Option Booking :=
  store.find? fun b => b.id = id

/-- The three-clause `$or` of the Mongo query in
`bookingRepository.checkConflict`, for an existing window `[s1, e1]` and a
candidate window `[s, e]`: the candidate starts inside the existing window, or
ends inside it, or fully contains it. -/
def overlapClause (s1 e1 s e : Int) : Bool :=
  (decide (s1 ≤ s) && decide (e1 ≥ s)) ||
  (decide (s1 ≤ e) && decide (e1 ≥ e)) ||
  (decide (s1 ≥ s) && decide (e1 ≤ e))

/-- Statuses the conflict query's `$in` filter matches. -/
def isBlockingStatus (st : BookingStatus) : Bool :=
  decide (st = .pending) || decide (st = .confirmed) || decide (st = .active)

/-- The per-document predicate of the Mongo query in
`bookingRepository.checkConflict`: equipment match, status in
pending/confirmed/active, the three-clause window disjunction, and the optional
id exclusion. -/
def conflictsWith (eqid : Nat) (s e : Int) (exclude : Option Nat)
    (b : Booking) : Bool :=
  decide (b.equipmentId = eqid) &&
  isBlockingStatus b.status &&
  overlapClause b.startDate b.endDate s e &&
  decide (exclude ≠ some b.id)

/-- `bookingRepository.checkConflict`: `countDocuments(query) > 0`. -/
def checkConflict (store : List Booking) (eqid : Nat) (s e : Int)
    (exclude : Option Nat) : Bool :=
  store.any (conflictsWith eqid s e exclude)

/-- `bookingRepository.updateStatus` (`findByIdAndUpdate` with
`$set: { status }`, returning the new document; `NotFoundError` when the id
does not resolve). -/
def updateStatus (store : List Booking) (id : Nat) (st : BookingStatus) :
    Except BErr (List Booking × Booking) :=
  match findBooking store id with
  | none => .error .notFound
  | some b =>
      .ok (store.map fun x => if x.id = id then { x with status := st } else x,
        { b with status := st })

/-- The patch type `UpdateBookingData` of `BookingService`. -/
structure UpdateBookingData where
  startDate : Option Int := none
  endDate : Option Int := none
  deliveryAddress : Option String := none
  notes : Option String := none
  status : Option BookingStatus := none
  totalAmount : Option Int := none
deriving DecidableEq, Repr

/-- `$set` of the present patch fields onto a document. -/
def applyPatch (b : Booking) (u : UpdateBookingData) : Booking :=
  { b with
    startDate := u.startDate.getD b.startDate
    endDate := u.endDate.getD b.endDate
    deliveryAddress := u.deliveryAddress.getD b.deliveryAddress
    notes := match u.notes with | none => b.notes | some n => some n
    status := u.status.getD b.status
    totalAmount := u.totalAmount.getD b.totalAmount }

/-- `bookingRepository.updateById` (`findByIdAndUpdate` with `$set`). -/
def updateById (store : List Booking) (id : Nat) (u : UpdateBookingData) :
    Except BErr (List Booking × Booking) :=
  match findBooking store id with
  | none => .error .notFound
  | some b =>
      .ok (store.map fun x => if x.id = id then applyPatch x u else x,
        applyPatch b u)

/-- `BookingService.validateBookingDates`: day-truncates now/start/end, rejects
past start, non-positive window, and a truncated start strictly after the
(non-truncated) timestamp one calendar year from now. -/
def validateBookingDates (now s e : Int) : Except BErr Unit :=
  let nowT := dayTrunc now
  let sT := dayTrunc s
  let eT := dayTrunc e
  if sT < nowT then .error (.validation .pastStartDate)
  else if eT ≤ sT then .error (.validation .endBeforeOrEqualStart)
  else
    let maxDate := setFullYearPlusOne now
    if sT > maxDate then .error (.validation .tooFarInFuture)
    else .ok ()

/-- `BookingService.calculateTotalAmount`: refetch the equipment, take
`Math.ceil` of the raw (non-truncated) millisecond span over a day, reject a
day count below 1, and multiply by the daily rate. -/
def calculateTotalAmount (eqs : List Equipment) (eqid : Nat) (s e : Int) :
    Except BErr Int :=
  match findEquipment eqs eqid with
  | none => .error .notFound
  | some q =>
      let days := cdiv (e - s) msPerDay
      if days < 1 then .error (.validation .subMinimumDuration)
      else .ok (q.dailyRate * days)

/-- The input type `CreateBookingData` of `BookingService`. -/
structure CreateBookingData where
  customerId : Nat
  equipmentId : Nat
  startDate : Int
  endDate : Int
  deliveryAddress : String
  notes : Option String := none
deriving DecidableEq, Repr

/-- The check phase of `BookingService.createBooking`, everything before the
persist: date validation, equipment fetch (`NotFound` when missing,
`Validation` when its status is not `available`), conflict query, and amount
computation.  Returns the computed `totalAmount` on success. -/
def createChecks (eqs : List Equipment) (store : List Booking) (now : Int)
    (d : CreateBookingData) : Except BErr Int :=
  match validateBookingDates now d.startDate d.endDate with
  | .error er => .error er
  | .ok _ =>
      match findEquipment eqs d.equipmentId with
      | none => .error .notFound
      | some q =>
          if q.status ≠ .available then .error (.validation .equipmentUnavailable)
          else if checkConflict store d.equipmentId d.startDate d.endDate none
          then .error .conflict
          else calculateTotalAmount eqs d.equipmentId d.startDate d.endDate

/-- The document `bookingRepository.create` persists: all request fields plus
the computed amount, with status `pending`. -/
def mkBooking (d : CreateBookingData) (amt : Int) (newId : Nat) : Booking :=
  { id := newId, customerId := d.customerId, equipmentId := d.equipmentId,
    startDate := d.startDate, endDate := d.endDate,
    deliveryAddress := d.deliveryAddress, notes := d.notes,
    totalAmount := amt, status := .pending }

/-- The persist phase of `BookingService.createBooking`
(`bookingRepository.create`). -/
def persistBooking (store : List Booking) (d : CreateBookingData) (amt : Int)
    (newId : Nat) : List Booking :=
  store ++ [mkBooking d amt newId]

/-- `BookingService.createBooking` run as one sequential unit: the check phase
followed, on success, by the persist.  Returns the store after the call and
the call's outcome. -/
def createBooking (eqs : List Equipment) (store : List Booking) (now : Int)
    (d : CreateBookingData) (newId : Nat) :
    List Booking × Except BErr Booking :=
  match createChecks eqs store now d with
  | .error er => (store, .error er)
  | .ok amt => (persistBooking store d amt newId, .ok (mkBooking d amt newId))

/-- `BookingService.updateBooking`: fetch, ownership/operator authorization,
terminal-status rejection, and — only when a date is present in the patch —
window re-validation, conflict re-check excluding this booking's own id, and
amount recomputation written into the patch before the `$set`. -/
def updateBooking (eqs : List Equipment) (store : List Booking) (now : Int)
    (id : Nat) (u : UpdateBookingData) (userId : Nat) (role : Role) :
    Except BErr (List Booking × Booking) :=
  match findBooking store id with
  | none => .error .notFound
  | some b =>
      if role ≠ .admin ∧ role ≠ .logistics ∧ b.customerId ≠ userId then
        .error .authorization
      else if b.status = .completed ∨ b.status = .cancelled then
        .error (.validation .terminalUpdate)
      else
        let s := u.startDate.getD b.startDate
        let e := u.endDate.getD b.endDate
        if u.startDate.isSome ∨ u.endDate.isSome then
          match validateBookingDates now s e with
          | .error er => .error er
          | .ok _ =>
              if checkConflict store b.equipmentId s e (some id) then
                .error .conflict
              else
                match calculateTotalAmount eqs b.equipmentId s e with
                | .error er => .error er
                | .ok amt => updateById store id { u with totalAmount := some amt }
        else updateById store id u

/-- `BookingService.cancelBooking`: fetch, ownership check (only `admin` is
exempt), rejection of `completed` and of already-`cancelled`, the 24-hour
policy for non-`admin` callers, then the status write. -/
def cancelBooking (store : List Booking) (id userId : Nat) (role : Role)
    (now : Int) : Except BErr (List Booking × Booking) :=
  match findBooking store id with
  | none => .error .notFound
  | some b =>
      if role ≠ .admin ∧ b.customerId ≠ userId then .error .authorization
      else if b.status = .completed then
        .error (.validation .cannotCancelCompleted)
      else if b.status = .cancelled then
        .error (.validation .alreadyCancelled)
      else if b.startDate - now < 24 * msPerHour ∧ role ≠ .admin then
        .error (.validation .cancellationWindow)
      else updateStatus store id .cancelled

/-- `BookingService.confirmBooking`: only a `pending` booking may be
confirmed. -/
def confirmBooking (store : List Booking) (id : Nat) :
    Except BErr (List Booking × Booking) :=
  match findBooking store id with
  | none => .error .notFound
  | some b =>
      if b.status ≠ .pending then .error (.validation .wrongStatusConfirm)
      else updateStatus store id .confirmed

/-- `BookingService.startBooking`: only a `confirmed` booking, once `now` has
reached its start date. -/
def startBooking (store : List Booking) (id : Nat) (now : Int) :
    Except BErr (List Booking × Booking) :=
  match findBooking store id with
  | none => .error .notFound
  | some b =>
      if b.status ≠ .confirmed then .error (.validation .wrongStatusStart)
      else if now < b.startDate then .error (.validation .beforeStartDate)
      else updateStatus store id .active

/-- `BookingService.completeBooking`: only an `active` booking. -/
def completeBooking (store : List Booking) (id : Nat) :
    Except BErr (List Booking × Booking) :=
  match findBooking store id with
  | none => .error .notFound
  | some b =>
      if b.status ≠ .active then .error (.validation .wrongStatusComplete)
      else updateStatus store id .completed

/-- `paymentRepository.findByStripePaymentIntentId`. -/
def findPaymentByIntent (ps : List Payment) (intent : Nat) : Option Payment :=
  ps.find? fun p => p.stripePaymentIntentId = intent

/-- `paymentRepository.updateStatus` (the payment is known to exist at every
call site modelled here, so the write is a plain map). -/
def updatePaymentStatus (ps : List Payment) (id : Nat) (st : PaymentStatus) :
    List Payment :=
  ps.map fun p => if p.id = id then { p with status := st } else p

/-- `PaymentService.handlePaymentSuccess` (webhook): look the payment up by
intent id (silently return when absent), mark it `succeeded`, and set the
correlated booking's status to `confirmed` via
`bookingRepository.updateStatus` — with no check of the booking's current
status. -/
def handlePaymentSuccess (st : SysState) (intent : Nat) :
    Except BErr SysState :=
  match findPaymentByIntent st.payments intent with
  | none => .ok st
  | some p =>
      let payments1 := updatePaymentStatus st.payments p.id .succeeded
      match updateStatus st.bookings p.bookingId .confirmed with
      | .error er => .error er
      | .ok (bookings1, _) => .ok { bookings := bookings1, payments := payments1 }

/-- `paymentRepository.setRefund`: mark the payment `refunded` and record the
refund amount. -/
def setRefund (ps : List Payment) (id : Nat) (amt : Int) : List Payment :=
  ps.map fun p =>
    if p.id = id then { p with status := .refunded, refundAmount := some amt }
    else p

/-- `PaymentService.refundPayment`: only a `succeeded` payment is refundable;
a full refund additionally sets the correlated booking to `cancelled` — again
with no check of the booking's current status.  (`amount || payment.amount`
falls back to the full amount when the argument is absent or zero.) -/
def refundPayment (st : SysState) (paymentId : Nat) (amount : Option Int) :
    Except BErr SysState :=
  match st.payments.find? (fun p => p.id = paymentId) with
  | none => .error .notFound
  | some p =>
      if p.status ≠ .succeeded ∧ p.status ≠ .refunded then
        .error (.validation .notRefundable)
      else if p.status = .refunded then .error (.validation .alreadyRefunded)
      else
        let refundAmount :=
          match amount with
          | none => p.amount
          | some a => if a = 0 then p.amount else a
        let payments1 := setRefund st.payments p.id refundAmount
        if refundAmount ≥ p.amount then
          match updateStatus st.bookings p.bookingId .cancelled with
          | .error er => .error er
          | .ok (bookings1, _) =>
              .ok { bookings := bookings1, payments := payments1 }
        else .ok { st with payments := payments1 }

/-- Interleaved execution of two concurrent `createBooking` requests in which
both check phases read the store before either persist commits — a schedule
the source's non-atomic check-then-write admits, since `checkConflict` and
`bookingRepository.create` are two separate awaited calls with no transaction
or per-equipment serialization between them.  Each request persists exactly
when its own checks passed; the returned flags record which requests
succeeded. -/
def raceDoubleCreate (eqs : List Equipment) (store : List Booking) (now : Int)
    (d1 d2 : CreateBookingData) (id1 id2 : Nat) :
    List Booking × Bool × Bool :=
  match createChecks eqs store now d1, createChecks eqs store now d2 with
  | .ok a1, .ok a2 =>
      (persistBooking (persistBooking store d1 a1 id1) d2 a2 id2, true, true)
  | .ok a1, .error _ => (persistBooking store d1 a1 id1, true, false)
  | .error _, .ok a2 => (persistBooking store d2 a2 id2, false, true)
  | .error _, .error _ => (store, false, false)

/-- The no-double-booking invariant of the data model: no two distinct
reservations with blocking status on the same equipment may have overlapping
(inclusive) windows.  This decidable check returns `true` when the invariant
is violated. -/
def violatesNoDoubleBooking (store : List Booking) : Bool :=
  store.any fun b => store.any fun c =>
    decide (b.id ≠ c.id) && decide (b.equipmentId = c.equipmentId) &&
    isBlockingStatus b.status && isBlockingStatus c.status &&
    decide (b.startDate ≤ c.endDate) && decide (c.startDate ≤ b.endDate)

/-! Concrete fixtures used to evaluate the definitions at explicit inputs. -/

/-- Available equipment with daily rate 100. -/
def exEq : Equipment := { id := 1, status := .available, dailyRate := 100 }

/-- Available equipment with daily rate 50. -/
def exEq2 : Equipment := { id := 2, status := .available, dailyRate := 50 }

/-- A reference instant: midnight 2024-01-01 UTC. -/
def exNow : Int := msOfCivil 2024 1 1

/-- Creation request for equipment 1, window 7 to 10 days out. -/
def exD1 : CreateBookingData :=
  { customerId := 5, equipmentId := 1, startDate := exNow + 7 * msPerDay,
    endDate := exNow + 10 * msPerDay, deliveryAddress := "10 Main St" }

/-- Creation request for equipment 1, window 8 to 9 days out (inside `exD1`). -/
def exD2 : CreateBookingData :=
  { customerId := 6, equipmentId := 1, startDate := exNow + 8 * msPerDay,
    endDate := exNow + 9 * msPerDay, deliveryAddress := "22 Side St" }

/-- Creation request with an empty window (end equal to start). -/
def exDBad : CreateBookingData :=
  { customerId := 5, equipmentId := 1, startDate := exNow + 7 * msPerDay,
    endDate := exNow + 7 * msPerDay, deliveryAddress := "10 Main St" }

/-- An `active` reservation starting 30 days out. -/
def exBAct : Booking :=
  { id := 1, customerId := 5, equipmentId := 1,
    startDate := exNow + 30 * msPerDay, endDate := exNow + 33 * msPerDay,
    deliveryAddress := "10 Main St", totalAmount := 300, status := .active }

/-- A `pending` reservation starting 10 hours out (inside the 24-hour
window). -/
def exBPend : Booking :=
  { id := 2, customerId := 5, equipmentId := 1,
    startDate := exNow + 10 * msPerHour, endDate := exNow + 3 * msPerDay,
    deliveryAddress := "10 Main St", totalAmount := 300, status := .pending }

/-- A `cancelled` reservation correlated with `exPayCanc`. -/
def exBCanc : Booking := { exBAct with id := 3, status := .cancelled }

/-- A `pending` payment for the cancelled reservation `exBCanc`. -/
def exPayCanc : Payment :=
  { id := 11, bookingId := 3, stripePaymentIntentId := 7, amount := 300,
    status := .pending }

/-- A `completed` reservation correlated with `exPayComp`. -/
def exBComp : Booking := { exBAct with id := 6, status := .completed }

/-- A `succeeded` payment for the completed reservation `exBComp`. -/
def exPayComp : Payment :=
  { id := 31, bookingId := 6, stripePaymentIntentId := 13, amount := 300,
    status := .succeeded }

/-- A second `cancelled` reservation, correlated with `exPay5`. -/
def exBCanc5 : Booking :=
  { id := 4, customerId := 8, equipmentId := 2,
    startDate := exNow + 14 * msPerDay, endDate := exNow + 16 * msPerDay,
    deliveryAddress := "22 Side St", totalAmount := 100, status := .cancelled }

/-- A `pending` payment for the cancelled reservation `exBCanc5`. -/
def exPay5 : Payment :=
  { id := 21, bookingId := 4, stripePaymentIntentId := 9, amount := 100,
    status := .pending }

/-- A reference instant whose following 12 months contain a February 29:
midnight 2023-07-01 UTC. -/
def exNowLeap : Int := msOfCivil 2023 7 1

/-- A blocking reservation on equipment 1 whose window ends exactly where a
candidate window `[exNow + 10 days, exNow + 20 days]` starts. -/
def exBEdge : Booking :=
  { id := 7, customerId := 5, equipmentId := 1,
    startDate := exNow + 6 * msPerDay, endDate := exNow + 10 * msPerDay,
    deliveryAddress := "10 Main St", totalAmount := 400, status := .confirmed }

/-! Theorems settling the claims. -/

/-- Claim C6: for valid windows (start at or before end on each side), the
three-clause predicate `checkConflict` applies per existing reservation holds
exactly when the candidate window `[s, e]` and the existing window `[s1, e1]`
overlap with inclusive boundaries (`s ≤ e1 ∧ s1 ≤ e`); and any blocking
reservation on the same equipment whose window touches the candidate window at
exactly one boundary day makes `checkConflict` return `true`. -/
theorem C6_overlap_clause_iff_inclusive_overlap
    (s e s1 e1 : Int) (h : s ≤ e) (h1 : s1 ≤ e1) :
    (overlapClause s1 e1 s e = true ↔ (s ≤ e1 ∧ s1 ≤ e)) ∧
    (∀ (store : List Booking) (eqid : Nat) (b : Booking),
      b ∈ store → b.equipmentId = eqid → isBlockingStatus b.status = true →
      b.startDate ≤ b.endDate → (b.endDate = s ∨ b.startDate = e) →
      checkConflict store eqid s e none = true) := by
  constructor
  · simp only [overlapClause, Bool.or_eq_true, Bool.and_eq_true,
      decide_eq_true_eq, ge_iff_le]
    omega
  · intro store eqid b hb heq hst hbv htouch
    have hclause : overlapClause b.startDate b.endDate s e = true := by
      simp only [overlapClause, Bool.or_eq_true, Bool.and_eq_true,
        decide_eq_true_eq, ge_iff_le]
      omega
    simp only [checkConflict, List.any_eq_true]
    refine ⟨b, hb, ?_⟩
    simp only [conflictsWith, Bool.and_eq_true, decide_eq_true_eq]
    refine ⟨⟨⟨heq, hst⟩, hclause⟩, by simp⟩

/-- Witness for C6 at concrete windows: `[10, 20]` against existing `[0, 10]`
(boundary touch), and `exBEdge` ending exactly where the candidate starts. -/
theorem C6_overlap_clause_iff_inclusive_overlap_witness :
    (overlapClause 0 10 10 20 = true ↔ ((10 : Int) ≤ 10 ∧ (0 : Int) ≤ 20)) ∧
    checkConflict [exBEdge] 1 (exNow + 10 * msPerDay) (exNow + 20 * msPerDay)
      none = true := by
  constructor
  · exact (C6_overlap_clause_iff_inclusive_overlap 10 20 0 10 (by decide)
      (by decide)).1
  · exact (C6_overlap_clause_iff_inclusive_overlap (exNow + 10 * msPerDay)
      (exNow + 20 * msPerDay) 0 10 (by decide) (by decide)).2
      [exBEdge] 1 exBEdge (by simp) rfl (by decide) (by decide)
      (Or.inl (by decide))

/-- Claim C7: when the equipment resolves, `calculateTotalAmount` equals the
daily rate times the ceiling of the window's span in days, failing with the
sub-minimum-duration `Validation` error exactly when that day count is below
1; the result depends only on the rate and the two dates; and rate 100 over a
3-day window yields 300. -/
theorem C7_calculate_total_amount_spec
    (eqs : List Equipment) (eqid : Nat) (s e : Int) (q : Equipment)
    (hq : findEquipment eqs eqid = some q) :
    (calculateTotalAmount eqs eqid s e =
      if cdiv (e - s) msPerDay < 1 then
        Except.error (BErr.validation VReason.subMinimumDuration)
      else Except.ok (q.dailyRate * cdiv (e - s) msPerDay)) ∧
    calculateTotalAmount [exEq] 1 0 (3 * msPerDay) = Except.ok 300 := by
  constructor
  · simp only [calculateTotalAmount, hq]
  · rfl

/-- Witness for C7: equipment 2 at rate 50 over a 1-day window. -/
theorem C7_calculate_total_amount_spec_witness :
    calculateTotalAmount [exEq2] 2 0 msPerDay =
      if cdiv (msPerDay - 0) msPerDay < 1 then
        Except.error (BErr.validation VReason.subMinimumDuration)
      else Except.ok (exEq2.dailyRate * cdiv (msPerDay - 0) msPerDay) :=
  (C7_calculate_total_amount_spec [exEq2] 2 0 msPerDay exEq2 rfl).1

/-- Claim C9: when `createBooking` returns any error the reservation store is
unchanged, and when it succeeds the store gains exactly the one returned
reservation, persisted with status `pending`. -/
theorem C9_create_booking_persist_discipline
    (eqs : List Equipment) (store : List Booking) (now : Int)
    (d : CreateBookingData) (newId : Nat) :
    (∀ er, (createBooking eqs store now d newId).2 = .error er →
      (createBooking eqs store now d newId).1 = store) ∧
    (∀ b, (createBooking eqs store now d newId).2 = .ok b →
      (createBooking eqs store now d newId).1 = store ++ [b] ∧
      b.status = .pending) := by
  unfold createBooking
  cases h : createChecks eqs store now d with
  | error er => simp
  | ok amt =>
      refine ⟨fun er her => by simp at her, fun b hb => ?_⟩
      simp only [Except.ok.injEq] at hb
      subst hb
      exact ⟨rfl, rfl⟩

/-- Witness for C9: a request with an empty window errors and leaves the store
unchanged; the request `exD1` succeeds and appends one `pending`
reservation. -/
theorem C9_create_booking_persist_discipline_witness :
    (createBooking [exEq] [] exNow exDBad 1).1 = [] ∧
    (createBooking [exEq] [] exNow exD1 1).1 = [] ++ [mkBooking exD1 300 1] ∧
    (mkBooking exD1 300 1).status = .pending := by
  refine ⟨?_, ?_⟩
  · exact (C9_create_booking_persist_discipline [exEq] [] exNow exDBad 1).1
      (.validation .endBeforeOrEqualStart) rfl
  · exact (C9_create_booking_persist_discipline [exEq] [] exNow exD1 1).2
      (mkBooking exD1 300 1) rfl

/-- Claim C10: for a reservation that is not `completed` and not `cancelled`,
`updateBooking` called by the owning customer with a patch containing only a
`status` field succeeds and persists that status verbatim — no state-machine
transition guard is applied. -/
theorem C10_update_booking_persists_status_verbatim
    (eqs : List Equipment) (store : List Booking) (now : Int) (id userId : Nat)
    (b : Booking) (st : BookingStatus)
    (hfind : findBooking store id = some b)
    (howner : b.customerId = userId)
    (hc : b.status ≠ .completed) (hx : b.status ≠ .cancelled) :
    updateBooking eqs store now id { status := some st } userId .customer =
      .ok (store.map fun x =>
            if x.id = id then applyPatch x { status := some st } else x,
          applyPatch b { status := some st }) ∧
    (applyPatch b { status := some st }).status = st := by
  refine ⟨?_, rfl⟩
  unfold updateBooking
  rw [hfind]
  dsimp only
  rw [if_neg (by simp [howner]), if_neg (by simp [hc, hx]),
    if_neg (by simp)]
  unfold updateById
  rw [hfind]

/-- Witness for C10: the owning customer moves the `pending` reservation
`exBPend` directly to `active` through the update operation. -/
theorem C10_update_booking_persists_status_verbatim_witness :
    updateBooking [exEq] [exBPend] exNow 2
        { status := some BookingStatus.active } 5 .customer =
      .ok ([exBPend].map fun x =>
            if x.id = 2 then
              applyPatch x { status := some BookingStatus.active }
            else x,
          applyPatch exBPend { status := some BookingStatus.active }) ∧
    (applyPatch exBPend { status := some BookingStatus.active }).status =
      .active :=
  C10_update_booking_persists_status_verbatim [exEq] [exBPend] exNow 2 5
    exBPend .active rfl rfl (by decide) (by decide)

/-- Claim C3 counterexample: an `active` reservation is not rejected — an
admin's cancel request against the `active` reservation `exBAct` succeeds and
sets its status to `cancelled`, refuting the claim that cancellation is
rejected for every reservation in status `active` regardless of role. -/
theorem C3_counterexample_active_cancel_succeeds :
    exBAct.status = .active ∧
    cancelBooking [exBAct] 1 9 .admin exNow =
      .ok ([{ exBAct with status := BookingStatus.cancelled }],
        { exBAct with status := BookingStatus.cancelled }) :=
  ⟨rfl, rfl⟩

/-- Claim C3 amended: `cancelBooking` succeeds only when the reservation's
status is not `completed` and not `cancelled` — `active` is cancellable: for
an `active` reservation an admin's cancel request succeeds and persists status
`cancelled`. -/
theorem C3_cancel_rejects_only_terminal
    (store : List Booking) (id userId : Nat) (role : Role) (now : Int)
    (b : Booking) (hfind : findBooking store id = some b) :
    (∀ p, cancelBooking store id userId role now = .ok p →
      b.status ≠ .completed ∧ b.status ≠ .cancelled) ∧
    (b.status = .active → role = .admin →
      cancelBooking store id userId role now =
        .ok (store.map fun x =>
              if x.id = id then { x with status := BookingStatus.cancelled }
              else x,
            { b with status := BookingStatus.cancelled })) := by
  constructor
  · intro p hp
    unfold cancelBooking at hp
    rw [hfind] at hp
    dsimp only at hp
    split_ifs at hp with h1 h2 h3 h4
    all_goals
      first
      | exact Except.noConfusion hp
      | exact ⟨h2, h3⟩
  · intro hact hrole
    subst hrole
    unfold cancelBooking
    rw [hfind]
    dsimp only
    rw [if_neg (by simp), if_neg (by simp [hact]), if_neg (by simp [hact]),
      if_neg (by simp)]
    unfold updateStatus
    rw [hfind]

/-- Witness for C3 at the `active` reservation `exBAct` with an admin
caller. -/
theorem C3_cancel_rejects_only_terminal_witness :
    (exBAct.status ≠ .completed ∧ exBAct.status ≠ .cancelled) ∧
    cancelBooking [exBAct] 1 9 .admin exNow =
      .ok ([exBAct].map fun x =>
            if x.id = 1 then { x with status := BookingStatus.cancelled }
            else x,
          { exBAct with status := BookingStatus.cancelled }) := by
  constructor
  · have hp : cancelBooking [exBAct] 1 9 .admin exNow =
        .ok ([exBAct].map fun x =>
              if x.id = 1 then { x with status := BookingStatus.cancelled }
              else x,
            { exBAct with status := BookingStatus.cancelled }) := by rfl
    exact (C3_cancel_rejects_only_terminal [exBAct] 1 9 .admin exNow exBAct
      rfl).1 _ hp
  · exact (C3_cancel_rejects_only_terminal [exBAct] 1 9 .admin exNow exBAct
      rfl).2 rfl rfl

/-- Claim C4 counterexample: `logistics` is not an exempt operator in
`cancelBooking` — against the cancellable `pending` reservation `exBPend`
whose start is under 24 hours away, a non-owning `logistics` caller is
rejected with `Authorization` and the owning `logistics` caller is rejected by
the 24-hour `Validation` gate, refuting the claim that a cancel request by an
actor with role `logistics` succeeds. -/
theorem C4_counterexample_logistics_not_exempt :
    exBPend.status = .pending ∧
    exBPend.startDate - exNow < 24 * msPerHour ∧
    cancelBooking [exBPend] 2 9 .logistics exNow = .error .authorization ∧
    cancelBooking [exBPend] 2 5 .logistics exNow =
      .error (.validation .cancellationWindow) :=
  ⟨rfl, by decide, rfl, rfl⟩

/-- Claim C4 amended: for a cancellable (non-terminal) reservation whose start
is strictly under 24 hours away, the owning customer's cancel fails with the
24-hour `Validation` error; only `admin` is exempt — an admin caller succeeds,
while a `logistics` caller is rejected (by the same `Validation` gate when
owning, by `Authorization` otherwise). -/
theorem C4_cancellation_window_gate
    (store : List Booking) (id : Nat) (b : Booking) (now : Int)
    (hfind : findBooking store id = some b)
    (hc : b.status ≠ .completed) (hx : b.status ≠ .cancelled)
    (hlate : b.startDate - now < 24 * msPerHour) :
    cancelBooking store id b.customerId .customer now =
      .error (.validation .cancellationWindow) ∧
    cancelBooking store id b.customerId .logistics now =
      .error (.validation .cancellationWindow) ∧
    (∀ opId, opId ≠ b.customerId →
      cancelBooking store id opId .logistics now = .error .authorization) ∧
    ∀ adminId, cancelBooking store id adminId .admin now =
      .ok (store.map fun x =>
            if x.id = id then { x with status := BookingStatus.cancelled }
            else x,
          { b with status := BookingStatus.cancelled }) := by
  refine ⟨?_, ?_, ?_, ?_⟩
  · unfold cancelBooking
    rw [hfind]
    dsimp only
    rw [if_neg (by simp), if_neg (by simp [hc]), if_neg (by simp [hx]),
      if_pos ⟨hlate, by simp⟩]
  · unfold cancelBooking
    rw [hfind]
    dsimp only
    rw [if_neg (by simp), if_neg (by simp [hc]), if_neg (by simp [hx]),
      if_pos ⟨hlate, by simp⟩]
  · intro opId hop
    unfold cancelBooking
    rw [hfind]
    dsimp only
    rw [if_pos ⟨by simp, fun h => hop h.symm⟩]
  · intro adminId
    unfold cancelBooking
    rw [hfind]
    dsimp only
    rw [if_neg (by simp), if_neg (by simp [hc]), if_neg (by simp [hx]),
      if_neg (by simp)]
    unfold updateStatus
    rw [hfind]

/-- Witness for C4 at the `pending` reservation `exBPend`, 10 hours before its
start. -/
theorem C4_cancellation_window_gate_witness :
    cancelBooking [exBPend] 2 5 .customer exNow =
      .error (.validation .cancellationWindow) ∧
    cancelBooking [exBPend] 2 9 .admin exNow =
      .ok ([exBPend].map fun x =>
            if x.id = 2 then { x with status := BookingStatus.cancelled }
            else x,
          { exBPend with status := BookingStatus.cancelled }) := by
  have h := C4_cancellation_window_gate [exBPend] 2 exBPend exNow rfl
    (by decide) (by decide) (by decide)
  exact ⟨h.1, h.2.2.2 9⟩

/-- Claim C8 counterexample: from midnight 2023-07-01 (whose following 12
months contain 2024-02-29), a booking starting 366 days later — strictly more
than 365 days after the current day — passes `validateBookingDates` without
the too-far-in-future error, refuting the claim that validation fails exactly
when start exceeds today plus 365 days. -/
theorem C8_counterexample_leap_window :
    validateBookingDates exNowLeap (exNowLeap + 366 * msPerDay)
      (exNowLeap + 367 * msPerDay) = .ok () ∧
    dayTrunc (exNowLeap + 366 * msPerDay) >
      dayTrunc exNowLeap + 365 * msPerDay :=
  ⟨rfl, by decide⟩

/-- Claim C8 amended: `validateBookingDates` fails with the too-far-in-future
error exactly when the past-start and end-order checks pass and the
day-truncated start is strictly after the (non-truncated) instant exactly one
calendar year after now — a bound spanning 366 days when the following 12
months contain a February 29 (as from 2023-07-01 or 2024-01-01) and 365 days
otherwise (as from 2024-07-01). -/
theorem C8_too_far_in_future_iff (now s e : Int) :
    (validateBookingDates now s e =
        .error (.validation .tooFarInFuture) ↔
      (¬ dayTrunc s < dayTrunc now ∧ ¬ dayTrunc e ≤ dayTrunc s ∧
        dayTrunc s > setFullYearPlusOne now)) ∧
    setFullYearPlusOne exNowLeap = exNowLeap + 366 * msPerDay ∧
    setFullYearPlusOne exNow = exNow + 366 * msPerDay ∧
    setFullYearPlusOne (msOfCivil 2024 7 1) =
      msOfCivil 2024 7 1 + 365 * msPerDay := by
  refine ⟨?_, by decide, by decide, by decide⟩
  unfold validateBookingDates
  dsimp only
  split_ifs with h1 h2 h3 <;> simp_all

/-- Claim C1: refuted by the code's non-atomic check-then-write — in the
interleaving where both creation requests for equipment 1 with overlapping
windows run their conflict checks before either persist commits, both succeed
and both overlapping reservations persist, violating no-double-booking; a
sequential (atomically-observed) second run of `createBooking` would instead
have failed with `Conflict`. -/
theorem C1_race_double_create_both_persist :
    (raceDoubleCreate [exEq] [] exNow exD1 exD2 1 2).2 = (true, true) ∧
    violatesNoDoubleBooking
      (raceDoubleCreate [exEq] [] exNow exD1 exD2 1 2).1 = true ∧
    (createBooking [exEq] (createBooking [exEq] [] exNow exD1 1).1 exNow exD2
      2).2 = .error .conflict :=
  ⟨rfl, rfl, rfl⟩

/-- Claim C2: refuted by the payment-reconciliation paths — delivering the
payment-success event for the `cancelled` reservation `exBCanc` rewrites its
status to `confirmed`, and a full refund for the `completed` reservation
`exBComp` rewrites its status to `cancelled`, so terminal reservations are not
kept unchanged by every operation of the system. -/
theorem C2_terminal_states_not_immutable :
    exBCanc.status = .cancelled ∧
    handlePaymentSuccess { bookings := [exBCanc], payments := [exPayCanc] }
        7 =
      .ok { bookings := [{ exBCanc with status := BookingStatus.confirmed }],
            payments :=
              [{ exPayCanc with status := PaymentStatus.succeeded }] } ∧
    exBComp.status = .completed ∧
    refundPayment { bookings := [exBComp], payments := [exPayComp] } 31
        none =
      .ok { bookings := [{ exBComp with status := BookingStatus.cancelled }],
            payments :=
              [{ exPayComp with
                  status := PaymentStatus.refunded,
                  refundAmount := some 300 }] } :=
  ⟨rfl, rfl, rfl, rfl⟩

/-- Claim C5: refuted — delivering the payment-success event for the
already-`cancelled` reservation `exBCanc5` is not a no-op: the handler returns
without error but rewrites the reservation's status from `cancelled` to
`confirmed`. -/
theorem C5_payment_success_not_noop_on_cancelled :
    exBCanc5.status = .cancelled ∧
    handlePaymentSuccess { bookings := [exBCanc5], payments := [exPay5] } 9 =
      .ok { bookings := [{ exBCanc5 with status := BookingStatus.confirmed }],
            payments :=
              [{ exPay5 with status := PaymentStatus.succeeded }] } ∧
    BookingStatus.confirmed ≠ BookingStatus.cancelled :=
  ⟨rfl, rfl, by decide⟩

end KowKartel
